import Mathlib

/-!
Shallow embedding of the routing and delivery core of the
`iot-message-routing-platform` repository:

* `src/messages/utils.py`    — NID normalizer (`normalize_nid`, `nid_variants`)
* `src/messages/services.py` — `MessageRoutingService.route_message`
* `src/messages/tasks.py`    — `deliver_webhook` retry state machine
* `src/devices/views.py`     — `DeviceViewSet.acknowledge_message`
* `src/messages/models.py`, `src/devices/models.py` — data model

Conventions of the embedding:

* Python strings are Lean `String`s; the NID strings handled by the code are
  ASCII, so the ASCII-only `pyLower`/`pyUpper`/`isPySpace` model Python's
  `str.lower`/`str.upper`/`str.strip` on the relevant inputs.
* Python values that may be `None`, an `int`, or a `str` (the message payload
  `nid` override) are modelled by `PyVal`, with Python truthiness as
  `PyVal.truthy`.
* Django rows are Lean structures; nullable columns are `Option` fields.
  Foreign-key equality (`filter(group=group)`) is modelled as structural
  equality of the referenced record.
* Timestamps are abstract integers supplied by the caller (`now`).
* `FloatField` radii and coordinates are modelled as rationals; the PostGIS
  great-circle distance is an abstract parameter `dist : Point → Point → ℚ`
  returning meters, per the spec's description of the geospatial collaborator.
* The database `unique_together ('device', 'message')` constraint on
  `device_inbox` makes `DeviceInbox.objects.create` raise an integrity error
  for a duplicate pair; this is modelled by `routeLoop` returning
  `RouteOutcome.integrityError` with the state accumulated so far (the loop
  is not wrapped in a transaction, so earlier inserts of the same call are
  kept).
-/

namespace IotRouter

/-- Group type choices from `messages/models.py` (`GroupType`). -/
inductive GroupType
  | gPrivate
  | gExclusive
  | gOpen
  | gDataLogging
  | gEnhanced
  | gLocation
  deriving DecidableEq, Repr

/-- Group row (`messages/models.py`, class `Group`). -/
structure Group where
  group_id : Nat
  group_type : GroupType
  nid : Option String
  radius : Option ℚ
  deriving DecidableEq, Repr

/-- Embeds `Group.uses_nid` (`messages/models.py` lines 32-40). -/
def Group.uses_nid (g : Group) : Bool :=
  g.group_type = GroupType.gPrivate ∨ g.group_type = GroupType.gExclusive ∨
    g.group_type = GroupType.gDataLogging ∨ g.group_type = GroupType.gEnhanced ∨
    g.group_type = GroupType.gLocation

/-- Embeds `Group.uses_distance` (`messages/models.py` lines 42-48). -/
def Group.uses_distance (g : Group) : Bool :=
  g.group_type = GroupType.gOpen ∨ g.group_type = GroupType.gEnhanced ∨
    g.group_type = GroupType.gLocation

/-- Owner row; only `radius_km` matters to routing (`accounts/models.py`). -/
structure Owner where
  radius_km : Option ℚ
  deriving DecidableEq, Repr

/-- A geographic point (the PostGIS `PointField`), as a pair of rationals. -/
abbrev Point := ℚ × ℚ

/-- Device row (`devices/models.py`, class `Device`); the fields routing and
delivery read. -/
structure Device where
  device_id : Nat
  nid : Option String
  location : Option Point
  webhook_url : Option String
  retry_limit : ℤ
  owner : Option Owner
  group : Group
  active : Bool
  deriving DecidableEq, Repr

/-- A Python value that can sit under the `nid` key of the message payload:
`None`, an `int`, or a `str`. -/
inductive PyVal
  | vNone
  | vInt (n : ℤ)
  | vStr (s : String)
  deriving DecidableEq, Repr

/-- Python truthiness of a `PyVal` (`None`, `0` and `""` are falsy). -/
def PyVal.truthy : PyVal → Bool
  | .vNone => false
  | .vInt n => n ≠ 0
  | .vStr s => s ≠ ""

/-- Message type choices (`messages/models.py`, `MessageType`). -/
inductive MessageType
  | alert
  | alarm
  deriving DecidableEq, Repr

/-- Message row (`messages/models.py`, class `Message`): the routing-relevant
payload `nid` key and the acknowledgment-tracking fields. `payload_nid = none`
means the payload dictionary has no `nid` key. -/
structure MessageRec where
  message_id : Nat
  mtype : MessageType
  payload_nid : Option PyVal
  read : Bool
  last_read_at : Option ℤ
  last_modified_read : Option ℤ
  acknowledge_status : Option String
  deriving DecidableEq, Repr

/-- Embeds `Message.is_alarm` (`messages/models.py` lines 98-100). -/
def MessageRec.is_alarm (m : MessageRec) : Bool :=
  m.mtype = MessageType.alarm

/-! ### String helpers modelling the Python string operations -/

/-- Whitespace characters removed by Python `str.strip()` (ASCII range). -/
def isPySpace (c : Char) : Bool :=
  c = ' ' ∨ c = '\t' ∨ c = '\n' ∨ c = '\x0d' ∨ c = '\x0b' ∨ c = '\x0c'

/-- Trims `isPySpace` characters from both ends of a character list. -/
def trimChars (cs : List Char) : List Char :=
  ((cs.dropWhile isPySpace).reverse.dropWhile isPySpace).reverse

/-- Python `str.strip()` on the ASCII strings the code handles. -/
def pyStrip (s : String) : String :=
  ⟨trimChars s.data⟩

/-- Python `str.replace('-', '')`: removes every hyphen. -/
def removeHyphens (s : String) : String :=
  ⟨s.data.filter (fun c => c ≠ '-')⟩

/-- ASCII lower-casing of one character. -/
def asciiLowerChar (c : Char) : Char :=
  if 'A' ≤ c ∧ c ≤ 'Z' then Char.ofNat (c.toNat + 32) else c

/-- ASCII upper-casing of one character. -/
def asciiUpperChar (c : Char) : Char :=
  if 'a' ≤ c ∧ c ≤ 'z' then Char.ofNat (c.toNat - 32) else c

/-- Python `str.lower()` on the ASCII strings the code handles. -/
def pyLower (s : String) : String :=
  ⟨s.data.map asciiLowerChar⟩

/-- Python `str.upper()` on the ASCII strings the code handles. -/
def pyUpper (s : String) : String :=
  ⟨s.data.map asciiUpperChar⟩

/-- Models `text.lower().startswith('0x')`: the first two characters are `0`
followed by `x` or `X`. -/
def hasHexMark (s : String) : Bool :=
  match s.data with
  | c0 :: c1 :: _ => c0 = '0' ∧ (c1 = 'x' ∨ c1 = 'X')
  | _ => false

/-! ### Python `int(text, base)` for bases 10 and 16 -/

/-- Value of one digit character in the given base, if valid. -/
def digitValue (base : Nat) (c : Char) : Option Nat :=
  let v : Nat :=
    if '0' ≤ c ∧ c ≤ '9' then c.toNat - '0'.toNat
    else if 'a' ≤ c ∧ c ≤ 'z' then c.toNat - 'a'.toNat + 10
    else if 'A' ≤ c ∧ c ≤ 'Z' then c.toNat - 'A'.toNat + 10
    else base
  if v < base then some v else none

/-- Accumulating tail of `parseUDigits`: consumes `digit` or `_ digit`. -/
def parseUDigitsGo (base : Nat) : List Char → Nat → Option Nat
  | [], acc => some acc
  | '_' :: c :: rest, acc =>
    match digitValue base c with
    | some d => parseUDigitsGo base rest (acc * base + d)
    | none => none
  | ['_'], _ => none
  | c :: rest, acc =>
    match digitValue base c with
    | some d => parseUDigitsGo base rest (acc * base + d)
    | none => none

/-- Python's unsigned digit grammar `digit (['_'] digit)*`: at least one
digit, single underscores allowed only between digits. -/
def parseUDigits (base : Nat) : List Char → Option Nat
  | [] => none
  | c :: rest =>
    match digitValue base c with
    | some d => parseUDigitsGo base rest d
    | none => none

/-- Hex digits after a consumed `0x`/`0X` prefix: one underscore may directly
follow the prefix (`int("0x_1", 16)` is legal in Python). -/
def parseHexTail : List Char → Option Nat
  | '_' :: c :: rest =>
    match digitValue 16 c with
    | some d => parseUDigitsGo 16 rest d
    | none => none
  | cs => parseUDigits 16 cs

/-- Unsigned part of `int(text, 16)`: optional `0x`/`0X` prefix, then digits. -/
def parseU16 : List Char → Option Nat
  | '0' :: 'x' :: rest => parseHexTail rest
  | '0' :: 'X' :: rest => parseHexTail rest
  | cs => parseUDigits 16 cs

/-- Python `int(text, 10)`: surrounding whitespace, an optional sign, then
decimal digits with single internal underscores. -/
def pyInt10 (s : String) : Option ℤ :=
  match trimChars s.data with
  | '+' :: rest => (parseUDigits 10 rest).map Int.ofNat
  | '-' :: rest => (parseUDigits 10 rest).map (fun n => -(n : ℤ))
  | cs => (parseUDigits 10 cs).map Int.ofNat

/-- Python `int(text, 16)`: surrounding whitespace, an optional sign, an
optional `0x`/`0X` prefix, then hex digits. -/
def pyInt16 (s : String) : Option ℤ :=
  match trimChars s.data with
  | '+' :: rest => (parseU16 rest).map Int.ofNat
  | '-' :: rest => (parseU16 rest).map (fun n => -(n : ℤ))
  | cs => (parseU16 cs).map Int.ofNat

/-- Python `str(value)` for the values `nid_variants` passes through it. -/
def pyRepr : PyVal → String
  | .vNone => "None"
  | .vInt n => toString n
  | .vStr s => s

/-- Lowercase hex digit string of a natural number (Python's `hex` digits). -/
def natHexLower (n : Nat) : String :=
  ⟨Nat.toDigits 16 n⟩

/-- Python `hex(n)`: `0x`-prefixed lowercase hex, sign in front. -/
def pyHex (n : ℤ) : String :=
  if n < 0 then "-0x" ++ natHexLower n.natAbs else "0x" ++ natHexLower n.natAbs

/-- Python `format(n, 'X')`: uppercase hex digits, sign in front, no prefix. -/
def pyFormatX (n : ℤ) : String :=
  if n < 0 then "-" ++ pyUpper (natHexLower n.natAbs)
  else pyUpper (natHexLower n.natAbs)

/-! ### The NID normalizer (`messages/utils.py`) -/

/-- Embeds `normalize_nid` (`messages/utils.py` lines 27-41): `None` and
`int` pass through; a string is stripped, de-hyphenated, and parsed as hex
when the cleaned text starts with `0x`/`0X` (case found via `lower()`),
decimal otherwise; empty cleaned text or a parse failure gives `none`. -/
def normalize_nid : PyVal → Option ℤ
  | .vNone => none
  | .vInt n => some n
  | .vStr s =>
    let text := removeHyphens (pyStrip s)
    if text = "" then none
    else if hasHexMark text then pyInt16 text
    else pyInt10 text

/-- Embeds `nid_variants` (`messages/utils.py` lines 44-60). The Python code
builds a `set`; this list may repeat elements but has the same membership,
which is all the `nid__in` filters consume. -/
def nid_variants (v : PyVal) : List String :=
  match v with
  | .vNone => []
  | _ =>
    let raw := pyRepr v
    let base := [raw, pyLower raw, pyUpper raw]
    match normalize_nid v with
    | some nInt =>
      base ++ [toString nInt, pyHex nInt, pyUpper (pyHex nInt),
        "0x" ++ pyFormatX nInt, "0X" ++ pyFormatX nInt]
    | none => base

/-! ### Inbox records (`messages/models.py`, class `DeviceInbox`) -/

/-- Inbox status choices (`messages/models.py`, `InboxStatus`). -/
inductive InboxStatus
  | pending
  | delivered
  | acknowledged
  | failed
  deriving DecidableEq, Repr

/-- DeviceInbox row: target device id, message id, lifecycle fields. -/
structure InboxRec where
  device : Nat
  message : Nat
  status : InboxStatus
  delivery_attempts : ℤ
  delivered_at : Option ℤ
  acknowledged_at : Option ℤ
  deriving DecidableEq, Repr

/-- A freshly created inbox row (`status=pending`, counters at defaults). -/
def newInboxRec (d m : Nat) : InboxRec :=
  { device := d, message := m, status := .pending, delivery_attempts := 0,
    delivered_at := none, acknowledged_at := none }

/-! ### The routing algorithm (`messages/services.py`, `route_message`) -/

/-- Truthiness of a nullable string column (`if device.webhook_url:`). -/
def truthyOptStr : Option String → Bool
  | some s => s ≠ ""
  | none => false

/-- The device NID as the Python value `source_device.nid` evaluates to. -/
def devNidVal (d : Device) : PyVal :=
  match d.nid with
  | some s => .vStr s
  | none => .vNone

/-- Embeds `message.payload.get('nid') or source_device.nid`
(`messages/services.py` line 37): the payload override is used only when it
is truthy, otherwise the expression evaluates to the device NID. -/
def effectiveNid (m : MessageRec) (src : Device) : PyVal :=
  match m.payload_nid with
  | some v => if v.truthy then v else devNidVal src
  | none => devNidVal src

/-- The literal `broadcast_values` list of `messages/services.py` line 39:
`['0xFFFFFFFF', '0xffffffff', str(0xFFFFFFFF)]`. -/
def broadcast_values : List String :=
  ["0xFFFFFFFF", "0xffffffff", "4294967295"]

/-- One candidate's fate under the NID `Q` filter of line 41: its stored NID
string is among the variants or among the broadcast values; a SQL `IN` never
matches a NULL column. -/
def stepBKeep (vals : List String) (d : Device) : Bool :=
  match d.nid with
  | some s => s ∈ vals ∨ s ∈ broadcast_values
  | none => false

/-- Step 1 of `route_message` (lines 30-33): active devices of the source's
group, the source itself excluded. -/
def stepA (devices : List Device) (src : Device) : List Device :=
  devices.filter (fun d =>
    decide (d.group = src.group) && d.active && decide (d.device_id ≠ src.device_id))

/-- Step 2 of `route_message` (lines 35-42): when the group uses NID and the
variant list of the effective NID is non-empty, keep candidates passing
`stepBKeep`; otherwise the candidate set is untouched. -/
def stepB (m : MessageRec) (src : Device) (cs : List Device) : List Device :=
  if src.group.uses_nid then
    let vals := nid_variants (effectiveNid m src)
    if vals.isEmpty then cs else cs.filter (stepBKeep vals)
  else cs

/-- Embeds the radius resolution of line 46: the owner's `radius_km` when the
owner is present and the field is non-null, else the group's `radius`. -/
def effectiveRadius (src : Device) : Option ℚ :=
  match src.owner with
  | some o =>
    match o.radius_km with
    | some r => some r
    | none => src.group.radius
  | none => src.group.radius

/-- Step 3 of `route_message` (lines 44-54): applied only when the group uses
distance and the source has a location; skipped when no radius resolves;
otherwise keeps candidates with a location within `radius_km * 1000` meters
of the source location under the collaborator's distance `dist`. A candidate
with a NULL location has NULL distance and is dropped by `distance__lte`. -/
def stepC (dist : Point → Point → ℚ) (src : Device) (cs : List Device) :
    List Device :=
  match src.location with
  | some sl =>
    if src.group.uses_distance then
      match effectiveRadius src with
      | some rk =>
        cs.filter (fun d =>
          match d.location with
          | some p => decide (dist p sl ≤ rk * 1000)
          | none => false)
      | none => cs
    else cs
  | none => cs

/-- The target list `list(candidates)` of line 57: steps 1-3 composed. -/
def targetsOf (dist : Point → Point → ℚ) (devices : List Device)
    (m : MessageRec) (src : Device) : List Device :=
  stepC dist src (stepB m src (stepA devices src))

/-- Result of one `route_message` call: either completion with the final
inbox table, the created rows and the scheduled webhook tasks
`(device_id, immediate?)`, or an integrity error raised by
`DeviceInbox.objects.create` on a duplicate `(device, message)` pair, with
the inbox table as it stands when the exception propagates. -/
inductive RouteOutcome
  | ok (inbox : List InboxRec) (created : List InboxRec)
      (sched : List (Nat × Bool))
  | integrityError (inbox : List InboxRec)
  deriving DecidableEq, Repr

/-- Whether the inbox table already holds a row for `(d, m)`. -/
def pairExists (inbox : List InboxRec) (d m : Nat) : Bool :=
  inbox.any (fun e => decide (e.device = d) && decide (e.message = m))

/-- The creation loop of `route_message` lines 60-77: for each target,
`DeviceInbox.objects.create` inserts a fresh pending row or raises on a
duplicate pair (the `unique_together` constraint); a webhook task is
scheduled for devices with a truthy webhook URL, immediate for alarms. -/
def routeLoop (m : MessageRec) :
    List Device → List InboxRec → List InboxRec → List (Nat × Bool) →
      RouteOutcome
  | [], inbox, created, sched => .ok inbox created sched
  | d :: rest, inbox, created, sched =>
    if pairExists inbox d.device_id m.message_id then .integrityError inbox
    else
      let e := newInboxRec d.device_id m.message_id
      let sched' :=
        if truthyOptStr d.webhook_url then sched ++ [(d.device_id, m.is_alarm)]
        else sched
      routeLoop m rest (inbox ++ [e]) (created ++ [e]) sched'

/-- Embeds `MessageRoutingService.route_message` (`messages/services.py`
lines 16-79) over an explicit inbox table. -/
def routeMessage (dist : Point → Point → ℚ) (devices : List Device)
    (m : MessageRec) (src : Device) (inbox : List InboxRec) : RouteOutcome :=
  routeLoop m (targetsOf dist devices m src) inbox [] []

/-- The inbox table after a routing call, whether it completed or raised. -/
def RouteOutcome.inboxAfter : RouteOutcome → List InboxRec
  | .ok inbox _ _ => inbox
  | .integrityError inbox => inbox

/-- The inbox table after `n` consecutive `route_message` calls for the same
message from the same source over the same device table. -/
def iterRoute (dist : Point → Point → ℚ) (devices : List Device)
    (m : MessageRec) (src : Device) : Nat → List InboxRec → List InboxRec
  | 0, inbox => inbox
  | n + 1, inbox =>
    iterRoute dist devices m src n
      (routeMessage dist devices m src inbox).inboxAfter

/-- Number of inbox rows for the pair `(d, m)`. -/
def pairCount (inbox : List InboxRec) (d m : Nat) : Nat :=
  inbox.countP (fun e => decide (e.device = d) && decide (e.message = m))

/-! ### The delivery worker (`messages/tasks.py`, `deliver_webhook`) -/

/-- Transport outcome of one outbound webhook POST: a response
`raise_for_status` accepts, or a `requests.RequestException`
(non-2xx/4xx/5xx status, connection error, timeout). -/
inductive AttemptOutcome
  | httpOk
  | transportFail
  deriving DecidableEq, Repr

/-- Embeds one run of `deliver_webhook` (`messages/tasks.py` lines 21-81) on
an existing inbox row: returns the updated row and the countdown of the
re-scheduled retry, `none` when no retry was scheduled. A device without a
truthy webhook URL short-circuits (lines 26-28). On success the row becomes
`delivered` with `delivered_at` stamped (lines 52-55). On transport failure
the attempt counter is incremented; the row becomes `failed` when the new
count reaches `retry_limit`, otherwise it is saved unchanged in status and a
retry is scheduled after `2 ^ attempts` seconds (lines 60-81). -/
def deliverWebhook (dev : Device) (e : InboxRec) (oc : AttemptOutcome)
    (now : ℤ) : InboxRec × Option ℤ :=
  if truthyOptStr dev.webhook_url then
    match oc with
    | .httpOk =>
      ({ e with status := .delivered, delivered_at := some now }, none)
    | .transportFail =>
      let a := e.delivery_attempts + 1
      if dev.retry_limit ≤ a then
        ({ e with delivery_attempts := a, status := .failed }, none)
      else
        ({ e with delivery_attempts := a }, some (2 ^ a.toNat))
  else (e, none)

/-- The run in which every attempt transport-fails: state after `k` steps,
paired with whether a next attempt is scheduled. The initial scheduling by
routing counts as the attempt being scheduled; a step with no scheduled
attempt changes nothing. -/
def failingRun (dev : Device) (e0 : InboxRec) : Nat → InboxRec × Bool
  | 0 => (e0, true)
  | k + 1 =>
    let p := failingRun dev e0 k
    if p.2 then
      let r := deliverWebhook dev p.1 .transportFail 0
      (r.1, r.2.isSome)
    else p

/-! ### Acknowledge (`devices/views.py`, `acknowledge_message`) -/

/-- Error outcomes of the `DeviceInbox.objects.get` call inside
`acknowledge_message`: `DoesNotExist` is answered with HTTP 404
(`NotFound`); `MultipleObjectsReturned` cannot happen under the
`unique_together` constraint but is distinguished in the model. -/
inductive AckError
  | notFound
  | multipleFound
  deriving DecidableEq, Repr

/-- The persisted state `acknowledge_message` reads and writes: the inbox
table and the message table. -/
structure AppState where
  entries : List InboxRec
  messages : List MessageRec
  deriving DecidableEq, Repr

/-- Inbox rows matching the `(device, message)` pair of the request. -/
def ackMatches (st : AppState) (dev mid : Nat) : List InboxRec :=
  st.entries.filter (fun e => decide (e.device = dev) && decide (e.message = mid))

/-- Update applied to the fetched inbox row (`devices/views.py` lines
142-144): status set to `acknowledged`, `acknowledged_at` stamped with the
current time, unconditionally. -/
def ackEntryUpdate (now : ℤ) (e : InboxRec) : InboxRec :=
  { e with status := .acknowledged, acknowledged_at := some now }

/-- Update applied to the message row (`devices/views.py` lines 147-153):
`read=True`; `last_read_at` stamped only when previously unset;
`last_modified_read` always stamped; `acknowledge_status='YES'`. -/
def ackMessageUpdate (now : ℤ) (m : MessageRec) : MessageRec :=
  { m with
    read := true
    last_read_at := match m.last_read_at with
      | none => some now
      | some t => some t
    last_modified_read := some now
    acknowledge_status := some "YES" }

/-- The state written back by a successful `acknowledge_message` call: the
matched inbox row stamped by `ackEntryUpdate`, the message row stamped by
`ackMessageUpdate`. -/
def ackSuccState (st : AppState) (dev mid : Nat) (now : ℤ) : AppState :=
  { entries := st.entries.map (fun e =>
      if decide (e.device = dev) && decide (e.message = mid) then
        ackEntryUpdate now e
      else e)
    messages := st.messages.map (fun m =>
      if m.message_id = mid then ackMessageUpdate now m else m) }

/-- Embeds `DeviceViewSet.acknowledge_message` (`devices/views.py` lines
137-166) after the permission check: fetch the inbox row for the pair,
answer 404 when none exists, otherwise stamp the row and the message. -/
def acknowledge (st : AppState) (dev mid : Nat) (now : ℤ) :
    Except AckError AppState :=
  match ackMatches st dev mid with
  | [] => .error .notFound
  | [_] => .ok (ackSuccState st dev mid now)
  | _ => .error .multipleFound

/-- The database invariant backing `DeviceInbox.objects.get`: the
`unique_together ('device', 'message')` constraint, as no-duplicate pairs. -/
abbrev pairsNodup (l : List InboxRec) : Prop :=
  (l.map (fun e => (e.device, e.message))).Nodup

/-! ### Sample records used by witnesses and counterexamples -/

/-- A private group: `uses_nid` true, `uses_distance` false. -/
def grpPrivate : Group :=
  { group_id := 1, group_type := .gPrivate, nid := none, radius := none }

/-- An open group with no default radius: `uses_distance` true. -/
def grpOpenNoRadius : Group :=
  { group_id := 2, group_type := .gOpen, nid := none, radius := none }

/-- A device with only an id, a NID and a group; remaining fields default. -/
def mkDevice (i : Nat) (nid : Option String) (g : Group) : Device :=
  { device_id := i, nid := nid, location := none, webhook_url := none,
    retry_limit := 3, owner := none, group := g, active := true }

/-- A message with only an id, a type and a payload `nid` key; the
acknowledgment-tracking fields at their defaults. -/
def mkMessage (i : Nat) (pn : Option PyVal) : MessageRec :=
  { message_id := i, mtype := .alert, payload_nid := pn, read := false,
    last_read_at := none, last_modified_read := none,
    acknowledge_status := none }

/-! ### C6 — the normalizer against the spec sentence -/

/-- Modelled from the spec sentence of §4.1 for claim C6, for comparison with
the code's `normalize_nid`: strip hyphen separators and (surrounding)
whitespace; null on empty cleaned input; parse the cleaned text as base-16
when it carries a `0x`/`0X` prefix and base-10 otherwise; null on parse
failure. -/
def normalizeSpecC6 : Option String → Option ℤ
  | none => none
  | some s =>
    let cleaned := removeHyphens (pyStrip s)
    if cleaned = "" then none
    else if hasHexMark cleaned then pyInt16 cleaned
    else pyInt10 cleaned

/-- Lifts a nullable raw text input to the Python value `normalize_nid`
receives. -/
def rawInput : Option String → PyVal
  | none => .vNone
  | some s => .vStr s

/-- C6: on every raw textual input, `normalize_nid` agrees with the spec's
description — strip hyphens and whitespace, then parse the cleaned text as
base-16 under a `0x`/`0X` prefix and base-10 otherwise, null on empty input
or parse failure. Concrete anchors exercise the hex, separator, and failure
paths. -/
theorem nid_normalize_C6 :
    (∀ v : Option String, normalize_nid (rawInput v) = normalizeSpecC6 v) ∧
    normalize_nid (.vStr " 0x12-34-56 ") = some 1193046 ∧
    normalize_nid (.vStr "1193046") = some 1193046 ∧
    normalize_nid (.vStr "12x") = none ∧
    normalize_nid (.vStr "---") = none := by
  refine ⟨?_, by decide, by decide, by decide, by decide⟩
  intro v
  cases v with
  | none => rfl
  | some s => rfl

/-! ### C9 — delivery attempt with no webhook URL is a no-op -/

/-- C9: when the target device has no truthy webhook URL, `deliver_webhook`
returns before touching the row: the inbox entry is returned unchanged in
every field and no retry is scheduled. -/
theorem delivery_C9 (dev : Device) (e : InboxRec) (oc : AttemptOutcome)
    (now : ℤ) (h : truthyOptStr dev.webhook_url = false) :
    deliverWebhook dev e oc now = (e, none) := by
  simp [deliverWebhook, h]

/-- A device with no webhook URL configured. -/
def devNoHook : Device := mkDevice 9 none grpPrivate

/-- Witness for C9 at a concrete device with a NULL webhook URL. -/
theorem delivery_C9_witness :
    deliverWebhook devNoHook (newInboxRec 1 1) .transportFail 0 =
      (newInboxRec 1 1, none) :=
  delivery_C9 devNoHook (newInboxRec 1 1) .transportFail 0 rfl

/-! ### C3 — the broadcast sentinel matches on the candidate side -/

/-- Source device of the C3 scenario (private group, no own NID). -/
def srcC3 : Device := mkDevice 1 none grpPrivate

/-- Candidate of the C3 counterexample: stored NID `"123"`. -/
def candC3 : Device := mkDevice 2 (some "123") grpPrivate

/-- Message whose payload `nid` override is the broadcast sentinel. -/
def msgC3 : MessageRec := mkMessage 1 (some (.vStr "0xFFFFFFFF"))

/-- Counterexample to C3: with the effective NID equal to the broadcast
sentinel `0xFFFFFFFF`, the Step B filter drops a candidate whose stored NID
is `"123"` — the sentinel on the message side does not keep every
candidate. -/
theorem routing_C3_counterexample :
    effectiveNid msgC3 srcC3 = .vStr "0xFFFFFFFF" ∧
    stepB msgC3 srcC3 [candC3] = [] :=
  ⟨rfl, rfl⟩

/-- C3 (amended): the broadcast matching of Step B is on the candidate's
stored NID — a candidate whose stored NID is one of the broadcast-sentinel
values `0xFFFFFFFF`/`0xffffffff`/`4294967295` is kept by the NID filter
regardless of the effective NID of the routed message. -/
theorem routing_C3 (m : MessageRec) (src c : Device) (cs : List Device)
    (s : String) (hn : c.nid = some s) (hb : s ∈ broadcast_values)
    (hc : c ∈ cs) : c ∈ stepB m src cs := by
  unfold stepB
  cases hg : src.group.uses_nid with
  | false => simpa using hc
  | true =>
    simp only [if_true]
    by_cases he : (nid_variants (effectiveNid m src)).isEmpty
    · simpa [he] using hc
    · simp only [he, if_false]
      refine List.mem_filter.mpr ⟨hc, ?_⟩
      unfold stepBKeep
      rw [hn]
      exact decide_eq_true (Or.inr hb)

/-- Candidate whose stored NID is the lowercase broadcast value. -/
def candC3w : Device := mkDevice 3 (some "0xffffffff") grpPrivate

/-- Witness for the amended C3: a candidate storing `"0xffffffff"` passes
Step B although the message's effective NID is unrelated. -/
theorem routing_C3_witness : candC3w ∈ stepB msgC3 srcC3 [candC3w] :=
  routing_C3 msgC3 srcC3 candC3w [candC3w] "0xffffffff" rfl (by decide)
    (by decide)

/-! ### C8 — effective NID selection and the fail-open skip -/

/-- Source device of the C8 counterexample: own NID `"7"`. -/
def srcC8 : Device := mkDevice 1 (some "7") grpPrivate

/-- Candidate of the C8 counterexample: stored NID `"7"`. -/
def candC8 : Device := mkDevice 2 (some "7") grpPrivate

/-- Message whose payload carries the present-but-falsy override `""`. -/
def msgC8 : MessageRec := mkMessage 2 (some (.vStr ""))

/-- Counterexample to C8: the payload `nid` override `""` is present, yet the
code's `or`-chain falls back to the source device NID `"7"`, and the Step B
outcome differs from what filtering by the override would produce — the
effective NID is not "the payload override when present". -/
theorem routing_C8_counterexample :
    msgC8.payload_nid = some (.vStr "") ∧
    effectiveNid msgC8 srcC8 = .vStr "7" ∧
    PyVal.vStr "7" ≠ PyVal.vStr "" ∧
    stepB msgC8 srcC8 [candC8] = [candC8] ∧
    List.filter (stepBKeep (nid_variants (.vStr ""))) [candC8] = [] :=
  ⟨rfl, rfl, by decide, rfl, rfl⟩

/-- C8 (amended): the effective NID is the message-level payload override
when present and truthy, else the source device's NID; and when the
effective NID is `None` — the only case yielding an empty variant set — the
NID predicate is skipped entirely, so a NID-using group with no NID
configured anywhere excludes no candidate on NID grounds alone. -/
theorem routing_C8 (m : MessageRec) (src : Device) (cs : List Device) :
    (∀ v, m.payload_nid = some v → v.truthy = true → effectiveNid m src = v) ∧
    (∀ v, m.payload_nid = some v → v.truthy = false →
      effectiveNid m src = devNidVal src) ∧
    (m.payload_nid = none → effectiveNid m src = devNidVal src) ∧
    (effectiveNid m src = .vNone → stepB m src cs = cs) := by
  refine ⟨?_, ?_, ?_, ?_⟩
  · intro v hv ht
    simp [effectiveNid, hv, ht]
  · intro v hv ht
    simp [effectiveNid, hv, ht]
  · intro hv
    simp [effectiveNid, hv]
  · intro he
    cases hg : src.group.uses_nid <;> simp [stepB, hg, he, nid_variants]

/-- Source device with no NID at all for the C8 witness. -/
def srcC8w : Device := mkDevice 5 none grpPrivate

/-- Message with no payload `nid` key for the C8 witness. -/
def msgC8w : MessageRec := mkMessage 3 none

/-- Candidate with an arbitrary stored NID for the C8 witness. -/
def candC8w : Device := mkDevice 6 (some "somenid") grpPrivate

/-- Witness for the amended C8: with no NID configured anywhere, Step B of a
NID-using group keeps every candidate. -/
theorem routing_C8_witness : stepB msgC8w srcC8w [candC8w] = [candC8w] :=
  (routing_C8 msgC8w srcC8w [candC8w]).2.2.2 rfl

/-! ### C7 — distance filtering -/

/-- C7: under a distance-using group and a located source, the effective
radius is the owner's `radius_km` when the owner is present with the field
set, else the group's `radius`; an unresolvable radius skips the distance
filter entirely; a resolved radius keeps exactly the candidates having a
location within `radius * 1000` meters (inclusive boundary) of the source
location under the collaborator's great-circle distance. -/
theorem routing_C7 (dist : Point → Point → ℚ) (src : Device)
    (cs : List Device) (sl : Point) (hd : src.group.uses_distance = true)
    (hl : src.location = some sl) :
    (∀ o r, src.owner = some o → o.radius_km = some r →
      effectiveRadius src = some r) ∧
    (∀ o, src.owner = some o → o.radius_km = none →
      effectiveRadius src = src.group.radius) ∧
    (src.owner = none → effectiveRadius src = src.group.radius) ∧
    (effectiveRadius src = none → stepC dist src cs = cs) ∧
    (∀ rk, effectiveRadius src = some rk →
      ∀ d, d ∈ stepC dist src cs ↔
        d ∈ cs ∧ ∃ p, d.location = some p ∧ dist p sl ≤ rk * 1000) := by
  refine ⟨?_, ?_, ?_, ?_, ?_⟩
  · intro o r ho hr
    simp [effectiveRadius, ho, hr]
  · intro o ho hr
    simp [effectiveRadius, ho, hr]
  · intro ho
    simp [effectiveRadius, ho]
  · intro he
    simp [stepC, hl, hd, he]
  · intro rk he d
    simp only [stepC, hl, hd, he, if_true, List.mem_filter]
    constructor
    · rintro ⟨hdc, hkeep⟩
      refine ⟨hdc, ?_⟩
      cases hdl : d.location with
      | none => rw [hdl] at hkeep; cases hkeep
      | some p =>
        rw [hdl] at hkeep
        exact ⟨p, rfl, of_decide_eq_true hkeep⟩
    · rintro ⟨hdc, p, hdl, hdist⟩
      refine ⟨hdc, ?_⟩
      rw [hdl]
      exact decide_eq_true hdist

/-- Source device for the C7 witness: open group without default radius, no
owner, located at the origin. -/
def srcC7w : Device :=
  { device_id := 1, nid := none, location := some (0, 0), webhook_url := none,
    retry_limit := 3, owner := none, group := grpOpenNoRadius, active := true }

/-- Candidate for the C7 witness. -/
def candC7w : Device := mkDevice 2 none grpOpenNoRadius

/-- Witness for C7 at a concrete unresolvable radius: the distance filter is
skipped and the candidate set is untouched. -/
theorem routing_C7_witness :
    stepC (fun _ _ => 0) srcC7w [candC7w] = [candC7w] :=
  (routing_C7 (fun _ _ => 0) srcC7w [candC7w] (0, 0) rfl rfl).2.2.2.1 rfl

/-! ### C2 — retry exhaustion boundary -/

/-- Device with `retry_limit = 0` and a configured webhook. -/
def devRL0 : Device :=
  { device_id := 4, nid := none, location := none,
    webhook_url := some "http://w.example", retry_limit := 0, owner := none,
    group := grpPrivate, active := true }

/-- Counterexample to C2: with the non-negative `retry_limit = 0`, one
transport-failing attempt drives the entry to `failed` with
`delivery_attempts = 1 ≠ retry_limit` — the transition does not happen
exactly at `delivery_attempts == retry_limit`. -/
theorem delivery_C2_counterexample :
    devRL0.retry_limit = 0 ∧
    (failingRun devRL0 (newInboxRec 1 1) 1).1.status = .failed ∧
    (failingRun devRL0 (newInboxRec 1 1) 1).1.delivery_attempts = 1 ∧
    (1 : ℤ) ≠ devRL0.retry_limit := by
  decide

/-- C2 (amended to `retry_limit ≥ 1`, as the `retry_limit = 0` boundary
forces): for a device with positive `retry_limit` whose every attempt
transport-fails, each attempt increments `delivery_attempts` by one; while
the count is below `retry_limit` the entry stays `pending` with a retry
re-scheduled, and the entry transitions to `failed` exactly when
`delivery_attempts` reaches `retry_limit`, with no further attempt
scheduled. -/
theorem delivery_C2 (dev : Device) (d m : Nat)
    (hw : truthyOptStr dev.webhook_url = true) (hl : 1 ≤ dev.retry_limit)
    (k : Nat) :
    ((k : ℤ) < dev.retry_limit →
      (failingRun dev (newInboxRec d m) k).1.status = .pending ∧
      (failingRun dev (newInboxRec d m) k).1.delivery_attempts = (k : ℤ) ∧
      (failingRun dev (newInboxRec d m) k).2 = true) ∧
    (dev.retry_limit ≤ (k : ℤ) →
      (failingRun dev (newInboxRec d m) k).1.status = .failed ∧
      (failingRun dev (newInboxRec d m) k).1.delivery_attempts =
        dev.retry_limit ∧
      (failingRun dev (newInboxRec d m) k).2 = false) := by
  induction k with
  | zero =>
    constructor
    · intro _
      exact ⟨rfl, rfl, rfl⟩
    · intro h
      exfalso
      simp only [Nat.cast_zero] at h
      omega
  | succ k ih =>
    obtain ⟨ih1, ih2⟩ := ih
    by_cases hk : (k : ℤ) < dev.retry_limit
    · obtain ⟨hs, ha, hb⟩ := ih1 hk
      by_cases hk2 : dev.retry_limit ≤ (k : ℤ) + 1
      · have hlim : dev.retry_limit = (k : ℤ) + 1 := by omega
        constructor
        · intro h
          exfalso
          push_cast at h
          omega
        · intro _
          simp only [failingRun, hb, if_true, deliverWebhook, hw, ha]
          rw [if_pos hk2]
          refine ⟨rfl, ?_, rfl⟩
          simpa using hlim.symm
      · constructor
        · intro _
          simp only [failingRun, hb, if_true, deliverWebhook, hw, ha]
          rw [if_neg hk2]
          refine ⟨hs, ?_, rfl⟩
          push_cast
          ring
        · intro h
          exfalso
          push_cast at h
          omega
    · have hge : dev.retry_limit ≤ (k : ℤ) := by omega
      obtain ⟨hs, ha, hb⟩ := ih2 hge
      constructor
      · intro h
        exfalso
        push_cast at h
        omega
      · intro _
        simp only [failingRun, hb, if_false]
        exact ⟨hs, ha, hb⟩

/-- Device with `retry_limit = 3` and a configured webhook. -/
def devRL3 : Device :=
  { device_id := 5, nid := none, location := none,
    webhook_url := some "http://w.example", retry_limit := 3, owner := none,
    group := grpPrivate, active := true }

/-- Witness for the amended C2: with `retry_limit = 3`, after the third
transport-failing attempt the entry is `failed` at exactly three recorded
attempts and no retry is scheduled. -/
theorem delivery_C2_witness :
    (failingRun devRL3 (newInboxRec 1 1) 3).1.status = .failed ∧
    (failingRun devRL3 (newInboxRec 1 1) 3).1.delivery_attempts =
      devRL3.retry_limit ∧
    (failingRun devRL3 (newInboxRec 1 1) 3).2 = false :=
  (delivery_C2 devRL3 1 1 (by decide) (by decide) 3).2 (by decide)

/-! ### Acknowledge lemmas under the uniqueness invariant -/

/-- Filtering a no-duplicate-pairs inbox table on an exact pair returns the
one matching row. -/
theorem filterPair_singleton (dev mid : Nat) :
    ∀ (l : List InboxRec) (e : InboxRec), pairsNodup l → e ∈ l →
      e.device = dev → e.message = mid →
      l.filter (fun x => decide (x.device = dev) && decide (x.message = mid)) =
        [e] := by
  intro l
  induction l with
  | nil => intro e _ he _ _; cases he
  | cons a t ih =>
    intro e hu he hd hm
    have hu2 : pairsNodup t := by
      unfold pairsNodup at hu ⊢
      rw [List.map_cons, List.nodup_cons] at hu
      exact hu.2
    have hnot : (a.device, a.message) ∉
        t.map (fun x => (x.device, x.message)) := by
      unfold pairsNodup at hu
      rw [List.map_cons, List.nodup_cons] at hu
      exact hu.1
    by_cases hpa : a.device = dev ∧ a.message = mid
    · have hea : e = a := by
        rcases List.mem_cons.mp he with h | h
        · exact h
        · exfalso
          apply hnot
          have hpair : (e.device, e.message) = (a.device, a.message) := by
            rw [hd, hm, hpa.1, hpa.2]
          rw [← hpair]
          exact List.mem_map_of_mem _ h
      subst hea
      have hcond : (decide (e.device = dev) && decide (e.message = mid)) =
          true := by
        simp [hd, hm]
      rw [List.filter_cons, if_pos hcond]
      have hrest : t.filter
          (fun x => decide (x.device = dev) && decide (x.message = mid)) =
            [] := by
        refine List.filter_eq_nil_iff.mpr (fun x hx hcx => ?_)
        apply hnot
        rw [Bool.and_eq_true, decide_eq_true_eq, decide_eq_true_eq] at hcx
        have hpair : (e.device, e.message) = (x.device, x.message) := by
          rw [hd, hm, hcx.1, hcx.2]
        rw [hpair]
        exact List.mem_map_of_mem _ hx
      rw [hrest]
    · have hcond : (decide (a.device = dev) && decide (a.message = mid)) ≠
          true := by
        simpa [Bool.and_eq_true, decide_eq_true_eq] using hpa
      rw [List.filter_cons, if_neg hcond]
      have het : e ∈ t := by
        rcases List.mem_cons.mp he with h | h
        · exact absurd ⟨h ▸ hd, h ▸ hm⟩ hpa
        · exact h
      exact ih e hu2 het hd hm

/-- The `objects.get` query of `acknowledge_message` finds exactly the one
row of the requested pair. -/
theorem ackMatches_singleton (st : AppState) (dev mid : Nat) (e : InboxRec)
    (hu : pairsNodup st.entries) (he : e ∈ st.entries) (hd : e.device = dev)
    (hm : e.message = mid) : ackMatches st dev mid = [e] :=
  filterPair_singleton dev mid st.entries e hu he hd hm

/-- When a row for the pair exists, `acknowledge` succeeds and writes the
stamped state. -/
theorem ack_ok_of_mem (st : AppState) (dev mid : Nat) (now : ℤ)
    (e : InboxRec) (hu : pairsNodup st.entries) (he : e ∈ st.entries)
    (hd : e.device = dev) (hm : e.message = mid) :
    acknowledge st dev mid now = .ok (ackSuccState st dev mid now) := by
  unfold acknowledge
  rw [ackMatches_singleton st dev mid e hu he hd hm]

/-- The stamped row is in the written-back inbox table. -/
theorem ackEntry_mem (st : AppState) (dev mid : Nat) (now : ℤ)
    (e : InboxRec) (he : e ∈ st.entries) (hd : e.device = dev)
    (hm : e.message = mid) :
    ackEntryUpdate now e ∈ (ackSuccState st dev mid now).entries := by
  unfold ackSuccState
  refine List.mem_map.mpr ⟨e, he, ?_⟩
  simp [hd, hm]

/-- The stamped message is in the written-back message table. -/
theorem ackMsg_mem (st : AppState) (dev mid : Nat) (now : ℤ)
    (mr : MessageRec) (hmr : mr ∈ st.messages) (hid : mr.message_id = mid) :
    ackMessageUpdate now mr ∈ (ackSuccState st dev mid now).messages := by
  unfold ackSuccState
  refine List.mem_map.mpr ⟨mr, hmr, ?_⟩
  simp [hid]

/-! ### C5 — acknowledge: NotFound iff no entry; field updates on success -/

/-- C5: under the uniqueness constraint, `acknowledge` fails with `NotFound`
precisely when no inbox row exists for the `(device, message)` pair; when a
row exists the call succeeds, the row becomes `acknowledged` with
`acknowledged_at` stamped, and the message gets `read=true`, `last_read_at`
stamped only if previously unset, `last_modified_read` always refreshed, and
`acknowledge_status="YES"`. -/
theorem ack_C5 (st : AppState) (dev mid : Nat) (now : ℤ)
    (hu : pairsNodup st.entries) :
    ((acknowledge st dev mid now = .error .notFound) ↔
      ∀ e ∈ st.entries, ¬(e.device = dev ∧ e.message = mid)) ∧
    (∀ e, e ∈ st.entries → e.device = dev → e.message = mid →
      acknowledge st dev mid now = .ok (ackSuccState st dev mid now) ∧
      ackEntryUpdate now e ∈ (ackSuccState st dev mid now).entries ∧
      (ackEntryUpdate now e).status = .acknowledged ∧
      (ackEntryUpdate now e).acknowledged_at = some now ∧
      (∀ mr, mr ∈ st.messages → mr.message_id = mid →
        ackMessageUpdate now mr ∈ (ackSuccState st dev mid now).messages ∧
        (ackMessageUpdate now mr).read = true ∧
        (mr.last_read_at = none →
          (ackMessageUpdate now mr).last_read_at = some now) ∧
        (∀ t, mr.last_read_at = some t →
          (ackMessageUpdate now mr).last_read_at = some t) ∧
        (ackMessageUpdate now mr).last_modified_read = some now ∧
        (ackMessageUpdate now mr).acknowledge_status = some "YES")) := by
  constructor
  · constructor
    · intro h
      have hnil : ackMatches st dev mid = [] := by
        rcases hmm : ackMatches st dev mid with _ | ⟨x, _ | ⟨y, ys⟩⟩
        · rfl
        · exfalso
          unfold acknowledge at h
          rw [hmm] at h
          exact Except.noConfusion h
        · exfalso
          unfold acknowledge at h
          rw [hmm] at h
          simp at h
      intro e he hc
      have hne := List.filter_eq_nil_iff.mp hnil e he
      apply hne
      simp [hc.1, hc.2]
    · intro h
      have hnil : ackMatches st dev mid = [] := by
        refine List.filter_eq_nil_iff.mpr (fun e he hce => ?_)
        rw [Bool.and_eq_true, decide_eq_true_eq, decide_eq_true_eq] at hce
        exact h e he hce
      unfold acknowledge
      rw [hnil]
  · intro e he hd hm
    refine ⟨ack_ok_of_mem st dev mid now e hu he hd hm,
      ackEntry_mem st dev mid now e he hd hm, rfl, rfl, ?_⟩
    intro mr hmr hid
    refine ⟨ackMsg_mem st dev mid now mr hmr hid, rfl, ?_, ?_, rfl, rfl⟩
    · intro hl
      simp [ackMessageUpdate, hl]
    · intro t hl
      simp [ackMessageUpdate, hl]

/-- A pending entry for device 1 message 1 with its message row. -/
def ackStatePending : AppState :=
  { entries := [newInboxRec 1 1], messages := [mkMessage 1 none] }

/-- Witness for C5: acknowledging an existing pending entry succeeds and
writes the stamped state. -/
theorem ack_C5_witness :
    acknowledge ackStatePending 1 1 5 = .ok (ackSuccState ackStatePending 1 1 5) :=
  ((ack_C5 ackStatePending 1 1 5 (by decide)).2 (newInboxRec 1 1) (by decide)
    rfl rfl).1

/-! ### C4 — re-acknowledge does not error but restamps the timestamp -/

/-- An inbox row acknowledged at time 10. -/
def ackEntryOld : InboxRec :=
  { device := 1, message := 1, status := .acknowledged,
    delivery_attempts := 0, delivered_at := none, acknowledged_at := some 10 }

/-- The message row as the first acknowledgment at time 10 left it. -/
def msgOld : MessageRec :=
  { message_id := 1, mtype := .alert, payload_nid := none, read := true,
    last_read_at := some 10, last_modified_read := some 10,
    acknowledge_status := some "YES" }

/-- State holding one already-acknowledged entry (stamped at time 10). -/
def ackStateAcked : AppState :=
  { entries := [ackEntryOld], messages := [msgOld] }

/-- Counterexample to C4: re-acknowledging the entry acknowledged at time 10
at the later time 20 succeeds but restamps `acknowledged_at` to 20 — the
timestamp is not left unchanged. -/
theorem ack_C4_counterexample :
    (acknowledge ackStateAcked 1 1 20).map
      (fun s => s.entries.map InboxRec.acknowledged_at) = .ok [some 20] ∧
    ackStateAcked.entries.map InboxRec.acknowledged_at = [some 10] ∧
    some (20 : ℤ) ≠ some (10 : ℤ) :=
  ⟨rfl, rfl, by decide⟩

/-- C4 (amended): re-acknowledging an already-acknowledged entry does not
error — the call succeeds — but it unconditionally restamps
`acknowledged_at` with the current time of the repeated call (so the
timestamp is unchanged only when the clock reading is the same). -/
theorem ack_C4 (st : AppState) (dev mid : Nat) (now2 : ℤ) (e : InboxRec)
    (hu : pairsNodup st.entries) (he : e ∈ st.entries) (hd : e.device = dev)
    (hm : e.message = mid) (_hst : e.status = .acknowledged) :
    acknowledge st dev mid now2 = .ok (ackSuccState st dev mid now2) ∧
    ackEntryUpdate now2 e ∈ (ackSuccState st dev mid now2).entries ∧
    (ackEntryUpdate now2 e).status = .acknowledged ∧
    (ackEntryUpdate now2 e).acknowledged_at = some now2 :=
  ⟨ack_ok_of_mem st dev mid now2 e hu he hd hm,
    ackEntry_mem st dev mid now2 e he hd hm, rfl, rfl⟩

/-- Witness for the amended C4: the already-acknowledged concrete entry is
re-acknowledged at time 20 without error, restamped at 20. -/
theorem ack_C4_witness :
    acknowledge ackStateAcked 1 1 20 = .ok (ackSuccState ackStateAcked 1 1 20) ∧
    ackEntryUpdate 20 ackEntryOld ∈ (ackSuccState ackStateAcked 1 1 20).entries ∧
    (ackEntryUpdate 20 ackEntryOld).status = .acknowledged ∧
    (ackEntryUpdate 20 ackEntryOld).acknowledged_at = some 20 :=
  ack_C4 ackStateAcked 1 1 20 ackEntryOld (by decide) (by decide) rfl rfl rfl

/-! ### C10 — acknowledge has no precondition on the current status -/

/-- C10: for any existing entry of the pair — in any status, including the
terminal `delivered` and `failed` — `acknowledge` succeeds, sets the status
to `acknowledged` and restamps `acknowledged_at` with the current time. -/
theorem ack_C10 (st : AppState) (dev mid : Nat) (now : ℤ) (e : InboxRec)
    (hu : pairsNodup st.entries) (he : e ∈ st.entries) (hd : e.device = dev)
    (hm : e.message = mid) :
    acknowledge st dev mid now = .ok (ackSuccState st dev mid now) ∧
    ackEntryUpdate now e ∈ (ackSuccState st dev mid now).entries ∧
    (ackEntryUpdate now e).status = .acknowledged ∧
    (ackEntryUpdate now e).acknowledged_at = some now :=
  ⟨ack_ok_of_mem st dev mid now e hu he hd hm,
    ackEntry_mem st dev mid now e he hd hm, rfl, rfl⟩

/-- An inbox row in the terminal `failed` state. -/
def failedEntry : InboxRec :=
  { device := 2, message := 3, status := .failed, delivery_attempts := 5,
    delivered_at := none, acknowledged_at := none }

/-- State holding one failed entry with its message row. -/
def ackStateFailed : AppState :=
  { entries := [failedEntry], messages := [mkMessage 3 none] }

/-- Witness for C10: a `failed` entry is transitioned to `acknowledged`. -/
theorem ack_C10_witness :
    acknowledge ackStateFailed 2 3 7 = .ok (ackSuccState ackStateFailed 2 3 7) ∧
    ackEntryUpdate 7 failedEntry ∈ (ackSuccState ackStateFailed 2 3 7).entries ∧
    (ackEntryUpdate 7 failedEntry).status = .acknowledged ∧
    (ackEntryUpdate 7 failedEntry).acknowledged_at = some 7 :=
  ack_C10 ackStateFailed 2 3 7 failedEntry (by decide) (by decide) rfl rfl

/-! ### C1 — routing is idempotent on the inbox table -/

/-- Unfolds `routeLoop` on an empty target list. -/
theorem routeLoop_nil (m : MessageRec) (inbox created : List InboxRec)
    (sched : List (Nat × Bool)) :
    routeLoop m [] inbox created sched = .ok inbox created sched := rfl

/-- Unfolds `routeLoop` when the head target's pair is already present: the
insert raises and the loop aborts with the table as accumulated. -/
theorem routeLoop_abort (m : MessageRec) (d : Device) (rest : List Device)
    (inbox created : List InboxRec) (sched : List (Nat × Bool))
    (h : pairExists inbox d.device_id m.message_id = true) :
    routeLoop m (d :: rest) inbox created sched = .integrityError inbox := by
  simp [routeLoop, h]

/-- Unfolds `routeLoop` when the head target's pair is absent. -/
theorem routeLoop_cons_of_not (m : MessageRec) (d : Device)
    (rest : List Device) (inbox created : List InboxRec)
    (sched : List (Nat × Bool))
    (h : pairExists inbox d.device_id m.message_id = false) :
    routeLoop m (d :: rest) inbox created sched =
      routeLoop m rest (inbox ++ [newInboxRec d.device_id m.message_id])
        (created ++ [newInboxRec d.device_id m.message_id])
        (if truthyOptStr d.webhook_url then
          sched ++ [(d.device_id, m.is_alarm)]
        else sched) := by
  simp [routeLoop, h]

/-- The loop only appends rows to the inbox table. -/
theorem routeLoop_inboxAfter_append (m : MessageRec) :
    ∀ (targets : List Device) (inbox created : List InboxRec)
      (sched : List (Nat × Bool)),
      ∃ ext, (routeLoop m targets inbox created sched).inboxAfter =
        inbox ++ ext := by
  intro targets
  induction targets with
  | nil =>
    intro inbox created sched
    exact ⟨[], by simp [routeLoop_nil, RouteOutcome.inboxAfter]⟩
  | cons d rest ih =>
    intro inbox created sched
    by_cases h : pairExists inbox d.device_id m.message_id
    · exact ⟨[], by simp [routeLoop_abort m d rest inbox created sched h,
        RouteOutcome.inboxAfter]⟩
    · rw [Bool.not_eq_true] at h
      rw [routeLoop_cons_of_not m d rest inbox created sched h]
      obtain ⟨ext, hext⟩ := ih (inbox ++ [newInboxRec d.device_id m.message_id])
        (created ++ [newInboxRec d.device_id m.message_id])
        (if truthyOptStr d.webhook_url then
          sched ++ [(d.device_id, m.is_alarm)]
        else sched)
      exact ⟨newInboxRec d.device_id m.message_id :: ext, by
        rw [hext, List.append_assoc]; rfl⟩

/-- A pair present before the loop is present after it. -/
theorem routeLoop_pair_mono (m : MessageRec) (targets : List Device)
    (inbox created : List InboxRec) (sched : List (Nat × Bool))
    (d' m' : Nat) (h : pairExists inbox d' m' = true) :
    pairExists (routeLoop m targets inbox created sched).inboxAfter d' m' =
      true := by
  obtain ⟨ext, hext⟩ := routeLoop_inboxAfter_append m targets inbox created sched
  rw [hext]
  unfold pairExists at h ⊢
  rw [List.any_append, h, Bool.true_or]

/-- After routing with a non-empty target list, the head target's pair is in
the inbox table — whether the loop completed, aborted at the head, or
aborted later. -/
theorem routeLoop_head_pair (m : MessageRec) (d : Device)
    (rest : List Device) (inbox created : List InboxRec)
    (sched : List (Nat × Bool)) :
    pairExists (routeLoop m (d :: rest) inbox created sched).inboxAfter
      d.device_id m.message_id = true := by
  by_cases h : pairExists inbox d.device_id m.message_id
  · rw [routeLoop_abort m d rest inbox created sched h]
    exact h
  · rw [Bool.not_eq_true] at h
    rw [routeLoop_cons_of_not m d rest inbox created sched h]
    apply routeLoop_pair_mono
    unfold pairExists
    rw [List.any_append]
    simp [newInboxRec]

/-- The inbox table after one `route_message` call. -/
def stepState (dist : Point → Point → ℚ) (devices : List Device)
    (m : MessageRec) (src : Device) (inbox : List InboxRec) :
    List InboxRec :=
  (routeMessage dist devices m src inbox).inboxAfter

/-- Unfolds `stepState` to the creation loop over the target list. -/
theorem stepState_eq (dist : Point → Point → ℚ) (devices : List Device)
    (m : MessageRec) (src : Device) (inbox : List InboxRec) :
    stepState dist devices m src inbox =
      (routeLoop m (targetsOf dist devices m src) inbox [] []).inboxAfter :=
  rfl

/-- A second routing call for the same message leaves the inbox table of the
first call untouched: with no targets nothing is created, and with targets
the first insert already collides and the call aborts without a write. -/
theorem stepState_fix (dist : Point → Point → ℚ) (devices : List Device)
    (m : MessageRec) (src : Device) (inbox : List InboxRec) :
    stepState dist devices m src (stepState dist devices m src inbox) =
      stepState dist devices m src inbox := by
  cases ht : targetsOf dist devices m src with
  | nil =>
    rw [stepState_eq, ht, routeLoop_nil]
    rfl
  | cons d rest =>
    have hpair : pairExists (stepState dist devices m src inbox)
        d.device_id m.message_id = true := by
      rw [stepState_eq, ht]
      exact routeLoop_head_pair m d rest inbox [] []
    rw [stepState_eq dist devices m src (stepState dist devices m src inbox),
      ht, routeLoop_abort _ _ _ _ _ _ hpair]
    rfl

/-- Count of rows of one pair after the loop: at most one when absent
before, unchanged when present. -/
theorem routeLoop_count (m : MessageRec) :
    ∀ (targets : List Device) (inbox created : List InboxRec)
      (sched : List (Nat × Bool)) (d' m' : Nat),
      pairCount (routeLoop m targets inbox created sched).inboxAfter d' m' ≤
        max (pairCount inbox d' m') 1 := by
  intro targets
  induction targets with
  | nil =>
    intro inbox created sched d' m'
    rw [routeLoop_nil]
    exact le_max_left _ _
  | cons d rest ih =>
    intro inbox created sched d' m'
    by_cases h : pairExists inbox d.device_id m.message_id
    · rw [routeLoop_abort m d rest inbox created sched h]
      exact le_max_left _ _
    · rw [Bool.not_eq_true] at h
      rw [routeLoop_cons_of_not m d rest inbox created sched h]
      refine le_trans (ih _ _ _ d' m') ?_
      by_cases hmatch : d.device_id = d' ∧ m.message_id = m'
      · have hzero : pairCount inbox d' m' = 0 := by
          unfold pairCount
          refine List.countP_eq_zero.mpr (fun e he hpe => ?_)
          rw [Bool.and_eq_true, decide_eq_true_eq, decide_eq_true_eq] at hpe
          have : pairExists inbox d.device_id m.message_id = true := by
            unfold pairExists
            refine List.any_eq_true.mpr ⟨e, he, ?_⟩
            rw [Bool.and_eq_true, decide_eq_true_eq, decide_eq_true_eq]
            exact ⟨hpe.1.trans hmatch.1.symm, hpe.2.trans hmatch.2.symm⟩
          rw [h] at this
          cases this
        have hone : pairCount
            (inbox ++ [newInboxRec d.device_id m.message_id]) d' m' = 1 := by
          unfold pairCount
          rw [List.countP_append]
          have : pairCount inbox d' m' = 0 := hzero
          unfold pairCount at this
          rw [this]
          simp [newInboxRec, hmatch.1, hmatch.2]
        rw [hone, hzero]
        decide
      · have heq : pairCount
            (inbox ++ [newInboxRec d.device_id m.message_id]) d' m' =
              pairCount inbox d' m' := by
          unfold pairCount
          rw [List.countP_append]
          have hz : List.countP
              (fun e => decide (e.device = d') && decide (e.message = m'))
              [newInboxRec d.device_id m.message_id] = 0 := by
            simp only [List.countP_cons, List.countP_nil, newInboxRec]
            rw [if_neg]
            simp only [Bool.and_eq_true, decide_eq_true_eq]
            exact hmatch
          rw [hz, Nat.add_zero]
        rw [heq]

/-- Pair counts after one routing call: bounded by the initial count or
one. -/
theorem stepState_count (dist : Point → Point → ℚ) (devices : List Device)
    (m : MessageRec) (src : Device) (inbox : List InboxRec) (d' m' : Nat) :
    pairCount (stepState dist devices m src inbox) d' m' ≤
      max (pairCount inbox d' m') 1 := by
  rw [stepState_eq]
  exact routeLoop_count m _ inbox [] [] d' m'

/-- Unfolds one iteration of `iterRoute` through `stepState`. -/
theorem iterRoute_succ (dist : Point → Point → ℚ) (devices : List Device)
    (m : MessageRec) (src : Device) (n : Nat) (inbox : List InboxRec) :
    iterRoute dist devices m src (n + 1) inbox =
      iterRoute dist devices m src n (stepState dist devices m src inbox) :=
  rfl

/-- Any positive number of routing calls gives the table of one call. -/
theorem iterRoute_eq_one (dist : Point → Point → ℚ) (devices : List Device)
    (m : MessageRec) (src : Device) :
    ∀ (n : Nat), 1 ≤ n → ∀ inbox,
      iterRoute dist devices m src n inbox =
        stepState dist devices m src inbox := by
  intro n
  induction n with
  | zero => intro h; exact absurd h (by omega)
  | succ n ih =>
    intro _ inbox
    by_cases hn : 1 ≤ n
    · rw [iterRoute_succ, ih hn, stepState_fix]
    · have hn0 : n = 0 := by omega
      subst hn0
      rfl

/-- Pair-count bound preserved over any number of routing calls. -/
theorem iterRoute_count (dist : Point → Point → ℚ) (devices : List Device)
    (m : MessageRec) (src : Device) :
    ∀ (n : Nat) (inbox : List InboxRec) (d' m' : Nat),
      pairCount (iterRoute dist devices m src n inbox) d' m' ≤
        max (pairCount inbox d' m') 1 := by
  intro n
  induction n with
  | zero =>
    intro inbox d' m'
    exact le_max_left _ _
  | succ n ih =>
    intro inbox d' m'
    rw [iterRoute_succ]
    refine le_trans (ih _ d' m') ?_
    exact max_le (stepState_count dist devices m src inbox d' m')
      (le_max_right _ _)

/-- C1: routing the same message `n ≥ 1` times yields exactly the inbox
table of one routing call — existing rows are untouched and the row count is
that of a single call — and for every `(device, message)` pair the table
never holds more rows than the greater of its initial count and one, so a
second row for a pair is never created. -/
theorem routing_C1 (dist : Point → Point → ℚ) (devices : List Device)
    (m : MessageRec) (src : Device) (inbox : List InboxRec) (n : Nat)
    (hn : 1 ≤ n) :
    iterRoute dist devices m src n inbox =
      iterRoute dist devices m src 1 inbox ∧
    ∀ d mid, pairCount (iterRoute dist devices m src n inbox) d mid ≤
      max (pairCount inbox d mid) 1 := by
  constructor
  · rw [iterRoute_eq_one dist devices m src n hn inbox]
    rfl
  · intro d mid
    exact iterRoute_count dist devices m src n inbox d mid

/-- Source device of the C1 witness (private group, NID 42). -/
def srcC1w : Device := mkDevice 1 (some "42") grpPrivate

/-- Target device of the C1 witness (same group and NID). -/
def tgtC1w : Device := mkDevice 2 (some "42") grpPrivate

/-- Message routed in the C1 witness. -/
def msgC1w : MessageRec := mkMessage 9 none

/-- Constant distance function for the C1 witness. -/
def distC1w : Point → Point → ℚ := fun _ _ => 0

/-- Witness for C1: two routing calls for the same concrete message produce
the inbox table of one call. -/
theorem routing_C1_witness :
    iterRoute distC1w [srcC1w, tgtC1w] msgC1w srcC1w 2 [] =
      iterRoute distC1w [srcC1w, tgtC1w] msgC1w srcC1w 1 [] :=
  (routing_C1 distC1w [srcC1w, tgtC1w] msgC1w srcC1w [] 2 (by decide)).1

end IotRouter
